import Mathlib

/-!
Verification development for the ComfyUI MCP server orchestration core.

Shallow embedding of the orchestration subsystems:
- `SM`   : StateManager        (src/core/StateManager.ts)
- `Orch` : ServerOrchestrator  (src/core/ServerOrchestrator.ts, executeWithRecovery)
- `CM`   : ConnectionManager   (ConnectionManager.ts)
- `HM`   : HealthMonitor       (HealthMonitor.ts)
- `PM`   : ProcessManager      (src/core/ProcessManager.ts)
- `WF`   : workflow orchestration tools (workflowOrchestration.ts)

Modelling conventions: JS `Date` values are modelled as `Nat` timestamps
(milliseconds); `Date.now()` / `new Date()` is passed in as an explicit `now`
parameter.  `JSON.parse(JSON.stringify(x))` deep clones are the identity in a
value semantics.  `Math.random()*1000` jitter is passed in as an explicit
rational parameter.  Event emission and persistence scheduling are modelled as
explicit effect traces.  TS `Record<string, any>` payloads that no claim
inspects are modelled with `String` values.
-/

namespace SM

/-- `ServerState.connectionState` sub-record (StateManager.ts). -/
structure ConnectionStateR where
  isConnected : Bool
  connectionId : Option String
  lastConnected : Option Nat
  lastDisconnected : Option Nat
  reconnectAttempts : Nat
deriving Repr, DecidableEq

/-- `ServerState.processState` sub-record.  `managedProcesses` is a
`Record<string, any>`; the `any` payload is modelled as `String`. -/
structure ProcessStateR where
  managedProcesses : List (String × String)
  lastCleanup : Option Nat
  activeProcessCount : Nat
deriving Repr, DecidableEq

/-- `ServerState.healthState` sub-record.  `overallHealth` is a plain string in
StateManager (initialized to "unknown"). -/
structure HealthStateR where
  lastHealthCheck : Option Nat
  healthScore : Nat
  overallHealth : String
  consecutiveFailures : Nat
deriving Repr, DecidableEq

/-- `ServerState.toolState` sub-record. -/
structure ToolStateR where
  lastToolCall : Option Nat
  toolCallCount : Nat
  failedToolCalls : Nat
  activeOperations : List String
deriving Repr, DecidableEq

/-- `ServerState.errorState` sub-record. -/
structure ErrorStateR where
  lastError : Option Nat
  errorCount : Nat
  criticalErrors : Nat
  recoveryAttempts : Nat
deriving Repr, DecidableEq

/-- `ServerState.configuration` sub-record. -/
structure ConfigurationR where
  comfyuiUrl : String
  sandboxPath : String
  autoRestart : Bool
  healthMonitoring : Bool
deriving Repr, DecidableEq

/-- The `ServerState` interface of StateManager.ts. -/
structure ServerState where
  sessionId : String
  startTime : Nat
  lastActivity : Nat
  connectionState : ConnectionStateR
  processState : ProcessStateR
  healthState : HealthStateR
  toolState : ToolStateR
  errorState : ErrorStateR
  configuration : ConfigurationR
deriving Repr, DecidableEq

/-- `StateSnapshot`: timestamp, deep-copied state, checksum of the serialized
state. -/
structure StateSnapshot where
  timestamp : Nat
  state : ServerState
  checksum : Int
deriving Repr, DecidableEq

/-- `StateManagerConfig`, with the constructor defaults already applied
(`Required<StateManagerConfig>`). -/
structure StateManagerConfig where
  persistState : Bool
  snapshotInterval : Nat
  maxSnapshots : Nat
  autoSave : Bool
  compressionEnabled : Bool
deriving Repr, DecidableEq

/-- The single `autoSaveTimer` field of the StateManager class holds either the
10s `setInterval` handle installed by `startAutoSave` or the 2s `setTimeout`
handle installed by `triggerAutoSave`. -/
inductive TimerKind where
  | interval (periodMs : Nat)
  | oneShot (delayMs : Nat)
deriving Repr, DecidableEq

/-- The mutable fields of the `StateManager` class. -/
structure StateMgr where
  currentState : ServerState
  config : StateManagerConfig
  snapshots : List StateSnapshot
  autoSaveTimer : Option TimerKind
deriving Repr, DecidableEq

/-- `createInitialState()`; the generated session id and `new Date()` are
explicit parameters. -/
def createInitialState (sessionId : String) (now : Nat) : ServerState where
  sessionId := sessionId
  startTime := now
  lastActivity := now
  connectionState := ⟨false, none, none, none, 0⟩
  processState := ⟨[], none, 0⟩
  healthState := ⟨none, 0, "unknown", 0⟩
  toolState := ⟨none, 0, 0, []⟩
  errorState := ⟨none, 0, 0, 0⟩
  configuration :=
    ⟨"http://127.0.0.1:8188", "sandbox/ComfyUI_Sandbox_CUDA126", true, true⟩

/-- JS 32-bit wrap of `hash & hash` (ToInt32). -/
def toInt32 (n : Int) : Int :=
  let m := n % (2 ^ 32)
  if m < 2 ^ 31 then m else m - 2 ^ 32

/-- One step of `calculateChecksum`'s rolling hash:
`hash = ((hash << 5) - hash) + char`, wrapped to 32 bits. -/
def hashStep (h : Int) (c : Nat) : Int :=
  toInt32 (h * 31 + c)

/-- `calculateChecksum` over an already-serialized state string
(`JSON.stringify(state)` is modelled by `serializeState` below). -/
def checksumOfString (s : String) : Int :=
  s.data.foldl (fun h c => hashStep h c.toNat) 0

/-- Stand-in for `JSON.stringify(state)`: a concrete serialization of the
state record, field by field in declaration order.  No claim inspects the
checksum, only that one is computed and stored. -/
def serializeState (s : ServerState) : String :=
  s.sessionId ++ "|" ++ toString s.startTime ++ "|" ++ toString s.lastActivity
    ++ "|" ++ toString s.connectionState.isConnected
    ++ toString s.connectionState.reconnectAttempts
    ++ "|" ++ toString s.processState.activeProcessCount
    ++ "|" ++ toString s.healthState.healthScore ++ s.healthState.overallHealth
    ++ "|" ++ toString s.toolState.toolCallCount
    ++ toString s.toolState.failedToolCalls
    ++ "|" ++ toString s.errorState.errorCount
    ++ toString s.errorState.criticalErrors
    ++ "|" ++ s.configuration.comfyuiUrl

/-- `calculateChecksum(state)`. -/
def calculateChecksum (s : ServerState) : Int :=
  checksumOfString (serializeState s)

/-- Effects emitted by a StateManager method, in order: `emit` of a typed
change event, and the scheduling of a (debounced) persistence write. -/
inductive SMEffect where
  | emit (event : String)
  | schedulePersist (delayMs : Nat)
deriving Repr, DecidableEq

/-- `startAutoSave()`: installs the unconditional 10-second `setInterval`
save into `autoSaveTimer`. -/
def startAutoSave (sm : StateMgr) : StateMgr :=
  { sm with autoSaveTimer := some (.interval 10000) }

/-- `triggerAutoSave()`: when `autoSave && persistState`, clears whatever
handle `autoSaveTimer` currently holds (`clearTimeout` also cancels an
interval) and installs the 2-second debounced `setTimeout` save. -/
def triggerAutoSave (sm : StateMgr) : StateMgr × List SMEffect :=
  if sm.config.autoSave && sm.config.persistState then
    ({ sm with autoSaveTimer := some (.oneShot 2000) },
      [.schedulePersist 2000])
  else
    (sm, [])

/-- `Partial<ServerState['connectionState']>`. -/
structure ConnectionStateUpd where
  isConnected : Option Bool := none
  connectionId : Option (Option String) := none
  lastConnected : Option (Option Nat) := none
  lastDisconnected : Option (Option Nat) := none
  reconnectAttempts : Option Nat := none
deriving Repr, DecidableEq

/-- Object-spread merge `{...cs, ...upd}`. -/
def mergeConnection (cs : ConnectionStateR) (u : ConnectionStateUpd) :
    ConnectionStateR where
  isConnected := u.isConnected.getD cs.isConnected
  connectionId := u.connectionId.getD cs.connectionId
  lastConnected := u.lastConnected.getD cs.lastConnected
  lastDisconnected := u.lastDisconnected.getD cs.lastDisconnected
  reconnectAttempts := u.reconnectAttempts.getD cs.reconnectAttempts

/-- `Partial<ServerState['processState']>`. -/
structure ProcessStateUpd where
  managedProcesses : Option (List (String × String)) := none
  lastCleanup : Option (Option Nat) := none
  activeProcessCount : Option Nat := none
deriving Repr, DecidableEq

/-- Object-spread merge for the process sub-state. -/
def mergeProcess (ps : ProcessStateR) (u : ProcessStateUpd) : ProcessStateR where
  managedProcesses := u.managedProcesses.getD ps.managedProcesses
  lastCleanup := u.lastCleanup.getD ps.lastCleanup
  activeProcessCount := u.activeProcessCount.getD ps.activeProcessCount

/-- `Partial<ServerState['healthState']>`. -/
structure HealthStateUpd where
  lastHealthCheck : Option (Option Nat) := none
  healthScore : Option Nat := none
  overallHealth : Option String := none
  consecutiveFailures : Option Nat := none
deriving Repr, DecidableEq

/-- Object-spread merge for the health sub-state. -/
def mergeHealth (hs : HealthStateR) (u : HealthStateUpd) : HealthStateR where
  lastHealthCheck := u.lastHealthCheck.getD hs.lastHealthCheck
  healthScore := u.healthScore.getD hs.healthScore
  overallHealth := u.overallHealth.getD hs.overallHealth
  consecutiveFailures := u.consecutiveFailures.getD hs.consecutiveFailures

/-- `Partial<ServerState['toolState']>`. -/
structure ToolStateUpd where
  lastToolCall : Option (Option Nat) := none
  toolCallCount : Option Nat := none
  failedToolCalls : Option Nat := none
  activeOperations : Option (List String) := none
deriving Repr, DecidableEq

/-- Object-spread merge for the tool sub-state. -/
def mergeTool (ts : ToolStateR) (u : ToolStateUpd) : ToolStateR where
  lastToolCall := u.lastToolCall.getD ts.lastToolCall
  toolCallCount := u.toolCallCount.getD ts.toolCallCount
  failedToolCalls := u.failedToolCalls.getD ts.failedToolCalls
  activeOperations := u.activeOperations.getD ts.activeOperations

/-- `Partial<ServerState['errorState']>`. -/
structure ErrorStateUpd where
  lastError : Option (Option Nat) := none
  errorCount : Option Nat := none
  criticalErrors : Option Nat := none
  recoveryAttempts : Option Nat := none
deriving Repr, DecidableEq

/-- Object-spread merge for the error sub-state. -/
def mergeError (es : ErrorStateR) (u : ErrorStateUpd) : ErrorStateR where
  lastError := u.lastError.getD es.lastError
  errorCount := u.errorCount.getD es.errorCount
  criticalErrors := u.criticalErrors.getD es.criticalErrors
  recoveryAttempts := u.recoveryAttempts.getD es.recoveryAttempts

/-- `Partial<ServerState['configuration']>`. -/
structure ConfigurationUpd where
  comfyuiUrl : Option String := none
  sandboxPath : Option String := none
  autoRestart : Option Bool := none
  healthMonitoring : Option Bool := none
deriving Repr, DecidableEq

/-- Object-spread merge for the configuration sub-state. -/
def mergeConfiguration (c : ConfigurationR) (u : ConfigurationUpd) :
    ConfigurationR where
  comfyuiUrl := u.comfyuiUrl.getD c.comfyuiUrl
  sandboxPath := u.sandboxPath.getD c.sandboxPath
  autoRestart := u.autoRestart.getD c.autoRestart
  healthMonitoring := u.healthMonitoring.getD c.healthMonitoring

/-- The public StateManager mutators.  `resetState` carries the freshly
generated session id as a parameter. -/
inductive Mutation where
  | updConnection (u : ConnectionStateUpd)
  | updProcess (u : ProcessStateUpd)
  | updHealth (u : HealthStateUpd)
  | updTool (u : ToolStateUpd)
  | updError (u : ErrorStateUpd)
  | updConfiguration (u : ConfigurationUpd)
  | recordToolCall (toolName : String) (success : Bool)
  | addActiveOperation (operationId : String)
  | removeActiveOperation (operationId : String)
  | recordError (message : String) (isCritical : Bool)
  | recordRecoveryAttempt
  | resetState (preserveConfiguration : Bool) (newSessionId : String)
deriving Repr, DecidableEq

/-- The typed change event each mutator emits. -/
def mutEventName : Mutation → String
  | .updConnection _ => "connectionStateChanged"
  | .updProcess _ => "processStateChanged"
  | .updHealth _ => "healthStateChanged"
  | .updTool _ => "toolStateChanged"
  | .updError _ => "errorStateChanged"
  | .updConfiguration _ => "configurationChanged"
  | .recordToolCall _ _ => "toolCallRecorded"
  | .addActiveOperation _ => "operationStarted"
  | .removeActiveOperation _ => "operationCompleted"
  | .recordError _ _ => "errorRecorded"
  | .recordRecoveryAttempt => "recoveryAttempted"
  | .resetState _ _ => "stateReset"

/-- Shared tail of the setter-style mutators: bump `lastActivity`, emit the
change event, then `triggerAutoSave()`. -/
def finishMutation (sm : StateMgr) (now : Nat) (event : String)
    (st : ServerState) : StateMgr × List SMEffect :=
  let sm1 := { sm with currentState := { st with lastActivity := now } }
  let (sm2, evs) := triggerAutoSave sm1
  (sm2, .emit event :: evs)

/-- One StateManager mutator call, returning the new manager state and its
effect trace (event emissions and persistence scheduling, in program order). -/
def applyMutation (sm : StateMgr) (now : Nat) : Mutation → StateMgr × List SMEffect
  | .updConnection u =>
      let st := sm.currentState
      finishMutation sm now "connectionStateChanged"
        { st with connectionState := mergeConnection st.connectionState u }
  | .updProcess u =>
      let st := sm.currentState
      finishMutation sm now "processStateChanged"
        { st with processState := mergeProcess st.processState u }
  | .updHealth u =>
      let st := sm.currentState
      finishMutation sm now "healthStateChanged"
        { st with healthState := mergeHealth st.healthState u }
  | .updTool u =>
      let st := sm.currentState
      finishMutation sm now "toolStateChanged"
        { st with toolState := mergeTool st.toolState u }
  | .updError u =>
      let st := sm.currentState
      finishMutation sm now "errorStateChanged"
        { st with errorState := mergeError st.errorState u }
  | .updConfiguration u =>
      let st := sm.currentState
      finishMutation sm now "configurationChanged"
        { st with configuration := mergeConfiguration st.configuration u }
  | .recordToolCall _ success =>
      let st := sm.currentState
      let ts := { st.toolState with
        lastToolCall := some now
        toolCallCount := st.toolState.toolCallCount + 1
        failedToolCalls :=
          if success then st.toolState.failedToolCalls
          else st.toolState.failedToolCalls + 1 }
      finishMutation sm now "toolCallRecorded" { st with toolState := ts }
  | .addActiveOperation opId =>
      let st := sm.currentState
      if st.toolState.activeOperations.contains opId then (sm, [])
      else
        let ts := { st.toolState with
          activeOperations := st.toolState.activeOperations ++ [opId] }
        ({ sm with currentState := { st with toolState := ts } },
          [.emit "operationStarted"])
  | .removeActiveOperation opId =>
      let st := sm.currentState
      if st.toolState.activeOperations.contains opId then
        let ts := { st.toolState with
          activeOperations := st.toolState.activeOperations.erase opId }
        ({ sm with currentState := { st with toolState := ts } },
          [.emit "operationCompleted"])
      else (sm, [])
  | .recordError _ isCritical =>
      let st := sm.currentState
      let es := { st.errorState with
        lastError := some now
        errorCount := st.errorState.errorCount + 1
        criticalErrors :=
          if isCritical then st.errorState.criticalErrors + 1
          else st.errorState.criticalErrors }
      finishMutation sm now "errorRecorded" { st with errorState := es }
  | .recordRecoveryAttempt =>
      let st := sm.currentState
      let es := { st.errorState with
        recoveryAttempts := st.errorState.recoveryAttempts + 1 }
      finishMutation sm now "recoveryAttempted" { st with errorState := es }
  | .resetState preserveConfiguration newSessionId =>
      let fresh := createInitialState newSessionId now
      let fresh :=
        if preserveConfiguration then
          { fresh with configuration := sm.currentState.configuration }
        else fresh
      let sm1 := { sm with currentState := fresh }
      let (sm2, evs) := triggerAutoSave sm1
      (sm2, .emit "stateReset" :: evs)

/-- `createSnapshot()`: deep-copy the current state, compute its checksum,
append to the ring buffer, evicting the oldest entry past `maxSnapshots`. -/
def createSnapshot (sm : StateMgr) (now : Nat) : StateMgr × StateSnapshot :=
  let snapshot : StateSnapshot :=
    ⟨now, sm.currentState, calculateChecksum sm.currentState⟩
  let snaps := sm.snapshots ++ [snapshot]
  let snaps := if snaps.length > sm.config.maxSnapshots then snaps.drop 1
               else snaps
  ({ sm with snapshots := snaps }, snapshot)

/-- `restoreFromSnapshot(snapshotIndex)`: rejects out-of-range indices with
`false`; otherwise deep-copies the stored snapshot state over the current
state and returns `true`. -/
def restoreFromSnapshot (sm : StateMgr) (snapshotIndex : Int) : StateMgr × Bool :=
  if snapshotIndex < 0 || snapshotIndex ≥ sm.snapshots.length then (sm, false)
  else
    match sm.snapshots.get? snapshotIndex.toNat with
    | none => (sm, false)
    | some snapshot => ({ sm with currentState := snapshot.state }, true)

end SM

namespace Orch

/-- `ServerOrchestrator.executeWithRecovery(operation, toolName, executor,
metadata)` (ServerOrchestrator.ts).

The executor is modelled as `executor : Nat → Except String T` giving the
outcome of its n-th invocation (0-based); thrown errors are `Except.error`
carrying the message.  `ErrorRecovery.handleError` on the `ErrorContext`
built from the caught error (severity `medium`) is modelled by the boolean
function `handleError` on the error message; `recoveryEnabled` is the
`this.errorRecovery` null check.  The optional StateManager receives the
same mutator calls as the source, at the ambient time `now`.  Returns the
final StateManager, the overall outcome (`Except.error` = the exception that
propagates to the caller), and the number of executor invocations. -/
def executeWithRecovery {T : Type} (smOpt : Option SM.StateMgr)
    (recoveryEnabled : Bool) (handleError : String → Bool)
    (operation toolName : String) (now : Nat)
    (executor : Nat → Except String T) :
    Option SM.StateMgr × Except String T × Nat :=
  let operationId := toolName ++ "_" ++ operation ++ "_" ++ toString now
  let sm1 := smOpt.map fun sm =>
    (SM.applyMutation sm now (.addActiveOperation operationId)).1
  let sm1 := sm1.map fun sm =>
    (SM.applyMutation sm now (.recordToolCall toolName true)).1
  match executor 0 with
  | .ok result =>
      let sm2 := sm1.map fun sm =>
        (SM.applyMutation sm now (.removeActiveOperation operationId)).1
      (sm2, .ok result, 1)
  | .error e =>
      let sm2 := sm1.map fun sm =>
        (SM.applyMutation sm now (.removeActiveOperation operationId)).1
      let sm2 := sm2.map fun sm =>
        (SM.applyMutation sm now (.recordToolCall toolName false)).1
      let sm2 := sm2.map fun sm =>
        (SM.applyMutation sm now (.recordError e false)).1
      if recoveryEnabled then
        if handleError e then
          match executor 1 with
          | .ok result =>
              let sm3 := sm2.map fun sm =>
                (SM.applyMutation sm now (.recordToolCall toolName true)).1
              (sm3, .ok result, 2)
          | .error retryError => (sm2, .error retryError, 2)
        else (sm2, .error e, 1)
      else (sm2, .error e, 1)

end Orch

namespace CM

/-- The `ConnectionState` record of ConnectionManager.ts.  Delays are
rationals because the jitter is `Math.random() * 1000`. -/
structure ConnState where
  isConnected : Bool
  lastConnected : Option Nat
  lastDisconnected : Option Nat
  reconnectAttempts : Nat
  maxReconnectAttempts : Nat
  reconnectDelay : ℚ
  baseReconnectDelay : ℚ
  maxReconnectDelay : ℚ
  connectionId : String
  healthCheckInterval : Nat
  lastHealthCheck : Option Nat
  isHealthy : Bool
deriving Repr, DecidableEq

/-- Events emitted by the ConnectionManager. -/
inductive ConnEvent where
  | connected (connectionId : String)
  | connectionFailed (attempts : Nat)
  | connectionAbandoned (attempts : Nat)
  | disconnected (connectionId : String)
deriving Repr, DecidableEq

/-- The initial state built by the constructor (connection id and config
passed explicitly; defaults: 10 attempts, base 1000, max 30000). -/
def initialState (maxAttempts : Nat) (base maxDelay : ℚ)
    (connectionId : String) : ConnState where
  isConnected := false
  lastConnected := none
  lastDisconnected := none
  reconnectAttempts := 0
  maxReconnectAttempts := maxAttempts
  reconnectDelay := base
  baseReconnectDelay := base
  maxReconnectDelay := maxDelay
  connectionId := connectionId
  healthCheckInterval := 5000
  lastHealthCheck := none
  isHealthy := false

/-- `scheduleReconnect()`: arms the reconnect timer with the *current*
`reconnectDelay`, then grows the delay:
`reconnectDelay = min(reconnectDelay * 2 + Math.random() * 1000, maxReconnectDelay)`.
`jitter` is the sampled `Math.random() * 1000` value. -/
def scheduleReconnect (st : ConnState) (jitter : ℚ) : ConnState :=
  { st with
    reconnectDelay := min (st.reconnectDelay * 2 + jitter) st.maxReconnectDelay }

/-- `onConnectionSuccess()`. -/
def onConnectionSuccess (st : ConnState) (now : Nat) : ConnState × List ConnEvent :=
  ({ st with
      isConnected := true
      lastConnected := some now
      reconnectAttempts := 0
      reconnectDelay := st.baseReconnectDelay
      isHealthy := true
      lastHealthCheck := some now },
    [.connected st.connectionId])

/-- `onConnectionFailure(error)`: increment the attempt counter, emit
`connectionFailed`; below the max, schedule a reconnect (growing the delay),
otherwise emit `connectionAbandoned`. -/
def onConnectionFailure (st : ConnState) (now : Nat) (jitter : ℚ) :
    ConnState × List ConnEvent :=
  let st1 := { st with
    isConnected := false
    lastDisconnected := some now
    reconnectAttempts := st.reconnectAttempts + 1
    isHealthy := false }
  if st1.reconnectAttempts < st1.maxReconnectAttempts then
    (scheduleReconnect st1 jitter, [.connectionFailed st1.reconnectAttempts])
  else
    (st1, [.connectionFailed st1.reconnectAttempts,
           .connectionAbandoned st1.reconnectAttempts])

/-- The state after `n` consecutive failed connection attempts starting from
`init`, the k-th failure sampling jitter `jitter k` at time `times k`. -/
def failSeq (init : ConnState) (times : Nat → Nat) (jitter : Nat → ℚ) :
    Nat → ConnState
  | 0 => init
  | n + 1 => (onConnectionFailure (failSeq init times jitter n)
      (times n) (jitter n)).1

end CM

namespace HM

/-- Four-level health status (HealthMonitor.ts). -/
inductive HealthStatus where
  | healthy
  | degraded
  | unhealthy
  | critical
deriving Repr, DecidableEq

/-- `HealthMetrics.comfyuiServerHealth`, as produced by `checkComfyUIHealth`. -/
structure ComfyUIServerHealth where
  isRunning : Bool
  responseTime : Option Nat
  queueSize : Option Nat
  isProcessing : Bool
  lastError : Option String
deriving Repr, DecidableEq

/-- `HealthMetrics.mcpServerHealth`.  `memoryUsage` is always the non-null
`process.memoryUsage()` record; only `heapUsed` is consulted. -/
structure McpServerHealth where
  isResponsive : Bool
  heapUsed : Nat
  uptime : Nat
  lastError : Option String
deriving Repr, DecidableEq

/-- `checkMCPServerHealth()`: always responsive, reads the live process
memory/uptime. -/
def checkMCPServerHealth (heapUsed uptime : Nat) : McpServerHealth :=
  ⟨true, heapUsed, uptime, none⟩

/-- `HealthMetrics.systemHealth`. -/
structure SystemHealth where
  availableMemory : Option Nat
  cpuUsage : Option Nat
  diskSpace : Option Nat
  networkConnectivity : Bool
deriving Repr, DecidableEq

/-- An entry of `processHealth.comfyuiProcesses`. -/
structure HMProcessInfo where
  pid : Nat
  name : String
  commandLine : String
  memoryUsage : Nat
  cpuUsage : Nat
  status : String
deriving Repr, DecidableEq

/-- An entry of `processHealth.portStatus`. -/
structure PortStatus where
  port : Nat
  isOpen : Bool
  processId : Option Nat
  processName : Option String
deriving Repr, DecidableEq

/-- `HealthMetrics.processHealth`. -/
structure ProcessHealth where
  comfyuiProcesses : List HMProcessInfo
  zombieProcesses : List HMProcessInfo
  portStatus : List PortStatus
deriving Repr, DecidableEq

/-- One point-in-time `HealthMetrics` record. -/
structure HealthMetrics where
  timestamp : Nat
  comfyuiServerHealth : ComfyUIServerHealth
  mcpServerHealth : McpServerHealth
  systemHealth : SystemHealth
  processHealth : ProcessHealth
  overallHealth : HealthStatus
  healthScore : Nat
deriving Repr, DecidableEq

/-- `Required<HealthMonitorConfig>` with constructor defaults. -/
structure HealthMonitorConfig where
  checkInterval : Nat
  healthThreshold : Nat
  criticalThreshold : Nat
  maxConsecutiveFailures : Nat
deriving Repr, DecidableEq

/-- `calculateHealthScore`: fixed weighted rubric.  JS truthiness:
`comfyui.responseTime && responseTime < 1000` is false for a 0 ms response;
`mcp.memoryUsage` is always a non-null object; `system.availableMemory &&
availableMemory > 1GB` — a value above 1 GB is nonzero, so the truthiness
guard is absorbed by the comparison. -/
def calculateHealthScore (comfyui : ComfyUIServerHealth)
    (mcp : McpServerHealth) (system : SystemHealth)
    (processH : ProcessHealth) : Nat :=
  let score := 0
  let maxScore := 0
  let maxScore := maxScore + 40
  let score := score + (if comfyui.isRunning then 30 else 0)
  let score := score + (match comfyui.responseTime with
    | some t => if t ≠ 0 ∧ t < 1000 then 10 else 0
    | none => 0)
  let maxScore := maxScore + 30
  let score := score + (if mcp.isResponsive then 20 else 0)
  let score := score + (if mcp.heapUsed < 100 * 1024 * 1024 then 10 else 0)
  let maxScore := maxScore + 20
  let score := score + (if system.networkConnectivity then 10 else 0)
  let score := score + (match system.availableMemory with
    | some m => if m > 1024 * 1024 * 1024 then 10 else 0
    | none => 0)
  let maxScore := maxScore + 10
  let score := score + (if processH.comfyuiProcesses.length > 0 then 5 else 0)
  let score := score +
    (if processH.portStatus.any (fun p => p.port == 8188 && p.isOpen) then 5
     else 0)
  (score * 100 + maxScore / 2) / maxScore

/-- `determineOverallHealth(score)`: three-threshold step function. -/
def determineOverallHealth (cfg : HealthMonitorConfig) (score : Nat) :
    HealthStatus :=
  if score ≥ cfg.healthThreshold then .healthy
  else if score ≥ cfg.criticalThreshold then .degraded
  else if score > 0 then .unhealthy
  else .critical

/-- `collectHealthMetrics()`: combine the four sub-readings into one metrics
record with the aggregate score and status. -/
def collectHealthMetrics (cfg : HealthMonitorConfig) (now : Nat)
    (comfyui : ComfyUIServerHealth) (heapUsed uptime : Nat)
    (system : SystemHealth) (processH : ProcessHealth) : HealthMetrics :=
  let mcp := checkMCPServerHealth heapUsed uptime
  let healthScore := calculateHealthScore comfyui mcp system processH
  { timestamp := now
    comfyuiServerHealth := comfyui
    mcpServerHealth := mcp
    systemHealth := system
    processHealth := processH
    overallHealth := determineOverallHealth cfg healthScore
    healthScore := healthScore }

/-- Events emitted by the HealthMonitor during one check. -/
inductive HMEvent where
  | healthCheck
  | healthStatusChanged (current : HealthStatus) (previous : Option HealthStatus)
  | criticalHealth
  | unhealthyStatus
  | degradedPerformance
deriving Repr, DecidableEq

/-- The mutable monitor fields touched by a check. -/
structure Monitor where
  consecutiveFailures : Nat
  lastHealthMetrics : Option HealthMetrics
  healthHistory : List HealthMetrics
deriving Repr, DecidableEq

/-- `maxHistorySize` (readonly field). -/
def maxHistorySize : Nat := 100

/-- `analyzeHealthStatus(metrics)`: reads the previous status from
`this.lastHealthMetrics`, emits `healthStatusChanged` on a difference,
resets or bumps `consecutiveFailures`, then emits the status-specific
event. -/
def analyzeHealthStatus (m : Monitor) (metrics : HealthMetrics) :
    Monitor × List HMEvent :=
  let prevHealth := m.lastHealthMetrics.map (·.overallHealth)
  let currentHealth := metrics.overallHealth
  let changeEvents :=
    if prevHealth ≠ some currentHealth then
      [HMEvent.healthStatusChanged currentHealth prevHealth]
    else []
  let consecutiveFailures :=
    if currentHealth = .healthy then 0 else m.consecutiveFailures + 1
  let statusEvents := match currentHealth with
    | .critical => [HMEvent.criticalHealth]
    | .unhealthy => [HMEvent.unhealthyStatus]
    | .degraded => [HMEvent.degradedPerformance]
    | .healthy => []
  ({ m with consecutiveFailures := consecutiveFailures },
    changeEvents ++ statusEvents)

/-- `performHealthCheck()` (success path): store the freshly collected
metrics in `lastHealthMetrics`, append to the bounded history, *then* run
`analyzeHealthStatus`, and finally emit `healthCheck`. -/
def performHealthCheck (m : Monitor) (metrics : HealthMetrics) :
    Monitor × List HMEvent :=
  let m1 := { m with lastHealthMetrics := some metrics }
  let history := m1.healthHistory ++ [metrics]
  let history := if history.length > maxHistorySize then history.drop 1
                 else history
  let m1 := { m1 with healthHistory := history }
  let (m2, events) := analyzeHealthStatus m1 metrics
  (m2, events ++ [HMEvent.healthCheck])

end HM

namespace PM

/-- `ProcessInfo.status` (ProcessManager.ts). -/
inductive ProcStatus where
  | running
  | stopped
  | error
  | starting
  | stopping
deriving Repr, DecidableEq

/-- The `ProcessInfo` registry record. -/
structure ProcessInfo where
  pid : Nat
  name : String
  commandLine : String
  status : ProcStatus
  startTime : Option Nat
  endTime : Option Nat
  restartCount : Nat
  lastError : Option String
deriving Repr, DecidableEq

/-- `ProcessConfig` (fields the registry semantics consult). -/
structure ProcessConfig where
  name : String
  command : String
  args : List String
  autoRestart : Bool
  maxRestarts : Option Nat
  restartDelay : Option Nat
  killTimeout : Option Nat
deriving Repr, DecidableEq

/-- JS `v || d` on an optional number: `undefined` and `0` both fall back. -/
def jsOr (v : Option Nat) (d : Nat) : Nat :=
  match v with
  | some n => if n = 0 then d else n
  | none => d

/-- Association-map read (`Map.get`); keys are unique by construction. -/
def getEntry {α : Type} : List (String × α) → String → Option α
  | [], _ => none
  | e :: rest, k => if e.1 = k then some e.2 else getEntry rest k

/-- Association-map write (`Map.set`): replace the existing entry in place,
or append a new one. -/
def setEntry {α : Type} : List (String × α) → String → α → List (String × α)
  | [], k, v => [(k, v)]
  | e :: rest, k, v =>
      if e.1 = k then (k, v) :: rest else e :: setEntry rest k v

/-- The ProcessManager's mutable maps.  `childProcesses` and `restartTimers`
are tracked by key only (the handles carry no modelled data). -/
structure Manager where
  processes : List (String × ProcessInfo)
  childProcesses : List String
  configs : List (String × ProcessConfig)
  restartTimers : List String
deriving Repr, DecidableEq

/-- `startProcess(config)`: no-op success if already `running`; otherwise
store the config, register a `ProcessInfo` in `starting` state carrying the
previous record's `restartCount`, spawn (outcome `spawnPid`), and either move
to `running` and register the child handle, or record the spawn error. -/
def startProcess (pm : Manager) (config : ProcessConfig) (now : Nat)
    (spawnPid : Option Nat) : Manager × Bool :=
  let alreadyRunning : Bool :=
    match getEntry pm.processes config.name with
    | some existing => existing.status == ProcStatus.running
    | none => false
  if alreadyRunning then (pm, true)
  else
    let configs := setEntry pm.configs config.name config
    let processInfo : ProcessInfo :=
      { pid := 0
        name := config.name
        commandLine := config.command ++ " " ++ String.intercalate " " config.args
        status := .starting
        startTime := some now
        endTime := none
        restartCount :=
          ((getEntry pm.processes config.name).map (·.restartCount)).getD 0
        lastError := none }
    let processes := setEntry pm.processes config.name processInfo
    match spawnPid with
    | some pid =>
        let processes := setEntry processes config.name
          { processInfo with pid := pid, status := .running }
        ({ pm with
            processes := processes
            configs := configs
            childProcesses := pm.childProcesses ++ [config.name] }, true)
    | none =>
        let processes := setEntry processes config.name
          { processInfo with
              status := .error
              lastError := some "Failed to start process - no PID assigned"
              endTime := some now }
        ({ pm with processes := processes, configs := configs }, false)

/-- The `exit` handler attached by `setupProcessHandlers`: mark the record
`stopped`, drop the child handle, and — when `autoRestart` holds and
`restartCount < (maxRestarts || 5)` — schedule a restart. -/
def onProcessExit (pm : Manager) (name : String) (now : Nat) : Manager :=
  match getEntry pm.processes name, getEntry pm.configs name with
  | some processInfo, some config =>
      let processInfo := { processInfo with
        status := .stopped
        endTime := some now }
      let pm := { pm with
        processes := setEntry pm.processes name processInfo
        childProcesses := pm.childProcesses.erase name }
      if config.autoRestart ∧
          processInfo.restartCount < jsOr config.maxRestarts 5 then
        { pm with restartTimers := pm.restartTimers ++ [name] }
      else pm
  | _, _ => pm

/-- The `scheduleRestart` timer firing: bump `restartCount` on the existing
record, re-run `startProcess` with the stored config, then clear the timer. -/
def restartTimerFire (pm : Manager) (name : String) (now : Nat)
    (spawnPid : Option Nat) : Manager × Bool :=
  match getEntry pm.processes name, getEntry pm.configs name with
  | some processInfo, some config =>
      let pm := { pm with
        processes := setEntry pm.processes name
          { processInfo with restartCount := processInfo.restartCount + 1 } }
      let (pm, ok) := startProcess pm config now spawnPid
      ({ pm with restartTimers := pm.restartTimers.erase name }, ok)
  | _, _ => (pm, false)

/-- The synchronous part of `stopProcess(name, force)`: succeed immediately
when the record or the child handle is absent; otherwise mark `stopping` and
cancel any pending restart timer (the kill signal's effect arrives later as
an `exit` event, handled by `onProcessExit`). -/
def stopProcessSync (pm : Manager) (name : String) : Manager × Bool :=
  match getEntry pm.processes name with
  | none => (pm, true)
  | some processInfo =>
      if pm.childProcesses.contains name then
        let pm := { pm with
          processes := setEntry pm.processes name
            { processInfo with status := .stopping }
          restartTimers := pm.restartTimers.erase name }
        (pm, true)
      else (pm, true)

/-- The registry-affecting operations of the ProcessManager. -/
inductive PMOp where
  | start (config : ProcessConfig) (now : Nat) (spawnPid : Option Nat)
  | exited (name : String) (now : Nat)
  | restartFire (name : String) (now : Nat) (spawnPid : Option Nat)
  | stop (name : String) (force : Bool)
deriving Repr, DecidableEq

/-- Apply one operation to the manager state. -/
def applyPMOp (pm : Manager) : PMOp → Manager
  | .start config now spawnPid => (startProcess pm config now spawnPid).1
  | .exited name now => onProcessExit pm name now
  | .restartFire name now spawnPid => (restartTimerFire pm name now spawnPid).1
  | .stop name _ => (stopProcessSync pm name).1

end PM

namespace WF

/-- `WorkflowStep` (workflowOrchestration.ts).  `parameters` values are
opaque strings. -/
structure WorkflowStep where
  id : String
  name : String
  workflowFile : String
  parameters : Option (List (String × String)) := none
  dependencies : Option (List String) := none
  condition : Option String := none
  retryCount : Nat := 0
  timeout : Option Nat := none
  onSuccess : Option (List String) := none
  onFailure : Option (List String) := none
deriving Repr, DecidableEq

/-- `WorkflowChain` (the fields the execution path consults). -/
inductive FailureStrategy where
  | stop
  | continue
  | retry
deriving Repr, DecidableEq

/-- A named, validated collection of steps. -/
structure WorkflowChain where
  id : String
  name : String
  description : String
  steps : List WorkflowStep
  globalParameters : Option (List (String × String)) := none
  maxConcurrency : Nat := 1
  failureStrategy : FailureStrategy := .stop
deriving Repr, DecidableEq

/-- One backwards pass of the `while` loop in `resolveDependencies`: the
source iterates `i` from `remaining.length - 1` down to `0`, so the *last*
element is examined first; `completed` grows during the pass, letting a step
join the same batch as a dependency that sits at a higher index.  Returns
(batch in push order, remaining in original order, completed). -/
def resolvePass : List WorkflowStep → List String →
    List WorkflowStep × List WorkflowStep × List String
  | [], completed => ([], [], completed)
  | step :: rest, completed =>
      let (batch, remaining, completed) := resolvePass rest completed
      let canExecute := match step.dependencies with
        | none => true
        | some deps => deps.all (fun dep => completed.contains dep)
      if canExecute then
        (batch ++ [step], remaining, step.id :: completed)
      else
        (batch, step :: remaining, completed)

/-- The driving loop of `resolveDependencies`; `fuel` bounds the number of
passes (each successful pass removes at least one step, so `steps.length`
passes always suffice; the fuel-exhaustion arm is unreachable but returns the
same circular-dependency error). -/
def resolveLoop : Nat → List WorkflowStep → List String →
    Except String (List (List WorkflowStep))
  | _, [], _ => .ok []
  | 0, _ :: _, _ => .error "Circular dependency detected in workflow steps"
  | fuel + 1, remaining@(_ :: _), completed =>
      let (batch, remaining', completed') := resolvePass remaining completed
      if batch.isEmpty then
        .error "Circular dependency detected in workflow steps"
      else
        (resolveLoop fuel remaining' completed').map
          (fun rest => batch :: rest)

/-- `resolveDependencies(steps)`: Kahn-style topological batching; throws on
a circular dependency. -/
def resolveDependencies (steps : List WorkflowStep) :
    Except String (List (List WorkflowStep)) :=
  resolveLoop steps.length steps []

/-- Per-step submission outcome: `Except.error` models a rejected
`executeWorkflowStep` promise, `Except.ok` the recorded result (the returned
prompt id). -/
def runBatches (strategy : FailureStrategy)
    (runStep : WorkflowStep → Except String Nat) :
    List (List WorkflowStep) → Bool × List String
  | [] => (false, [])
  | batch :: rest =>
      let executed := batch.map (·.id)
      let anyFailed := batch.any fun step => (runStep step).isOk = false
      if strategy = .stop ∧ anyFailed then
        (true, executed)
      else
        let (failed, executedRest) := runBatches strategy runStep rest
        (failed, executed ++ executedRest)

/-- The outcome of the `execute_workflow_chain` tool handler. -/
structure ExecOutcome where
  isError : Bool
  errorMsg : Option String
  executedSteps : List String
  finalStatus : Option String
deriving Repr, DecidableEq

/-- `execute_workflow_chain` (non-dry-run path): resolve the dependency
batches — a thrown circular-dependency error is caught and reported as an
`isError` response before any step runs — then execute batches sequentially;
under `failureStrategy: stop` a failed batch aborts the remaining batches and
the final status is `failed`. -/
def execute_workflow_chain (chain : WorkflowChain)
    (runStep : WorkflowStep → Except String Nat) : ExecOutcome :=
  match resolveDependencies chain.steps with
  | .error msg =>
      { isError := true
        errorMsg := some ("Failed to execute workflow chain: " ++ msg)
        executedSteps := []
        finalStatus := none }
  | .ok batches =>
      let (failed, executed) := runBatches chain.failureStrategy runStep batches
      { isError := false
        errorMsg := none
        executedSteps := executed
        finalStatus := some (if failed then "failed" else "completed") }

/-- The step list contains a dependency cycle: a nonempty collection of its
steps, each of which lists the id of a collection member among its
dependencies.  (With unique step ids this is exactly the standard notion:
every member of the finite collection has an out-edge back into the
collection, so the dependency graph contains a directed cycle, and
conversely the steps of any directed cycle form such a collection.) -/
def HasCycle (steps : List WorkflowStep) : Prop :=
  ∃ cyc : List WorkflowStep, cyc ≠ [] ∧ (∀ s ∈ cyc, s ∈ steps) ∧
    ∀ s ∈ cyc, ∃ deps, s.dependencies = some deps ∧
      ∃ d ∈ deps, d ∈ cyc.map (fun c => c.id)

end WF

/-- Classifier for the two set-like membership trackers among the StateManager
mutators (`addActiveOperation` / `removeActiveOperation`). -/
def SM.Mutation.isActiveOpTracking : SM.Mutation → Bool
  | .addActiveOperation _ => true
  | .removeActiveOperation _ => true
  | _ => false

namespace Demo

/-- StateManager config with the orchestrator's settings
(persistState, autoSave on, maxSnapshots 100). -/
def mgrCfg : SM.StateManagerConfig := ⟨true, 30000, 100, true, false⟩

/-- A fresh StateManager with session "s1" started at t=0. -/
def mgr0 : SM.StateMgr := ⟨SM.createInitialState "s1" 0, mgrCfg, [], none⟩

/-- `mgr0` after one `createSnapshot()` at t=10. -/
def mgr1 : SM.StateMgr := (SM.createSnapshot mgr0 10).1

/-- `mgr1` after `resetState(true)` at t=20 issuing session "s2". -/
def mgr2 : SM.StateMgr :=
  (SM.applyMutation mgr1 20 (.resetState true "s2")).1

/-- A fresh StateManager right after the constructor ran `startAutoSave()`:
the 10-second periodic save interval is armed. -/
def mgrAuto : SM.StateMgr := SM.startAutoSave mgr0

/-- A two-outcome executor: the first invocation throws "boom", every retry
throws "boom again". -/
def c1executor : Nat → Except String Nat := fun n =>
  if n = 0 then .error "boom" else .error "boom again"

/-- HealthMonitor config as wired by the orchestrator
(thresholds 70/30). -/
def hmCfg : HM.HealthMonitorConfig := ⟨5000, 70, 30, 3⟩

/-- All-good sub-readings: running service, 100 ms response, connectivity,
2 GB free, a ComfyUI process, port 8188 open. -/
def goodComfy : HM.ComfyUIServerHealth := ⟨true, some 100, some 0, false, none⟩

/-- Service down. -/
def badComfy : HM.ComfyUIServerHealth :=
  ⟨false, none, none, false, some "fetch failed"⟩

/-- Healthy system readings. -/
def goodSystem : HM.SystemHealth := ⟨some (2 * 1024 * 1024 * 1024), none, none, true⟩

/-- Degraded system readings. -/
def badSystem : HM.SystemHealth := ⟨none, none, none, false⟩

/-- A ComfyUI process present and port 8188 open. -/
def goodProcess : HM.ProcessHealth :=
  ⟨[⟨123, "python.exe", "python ComfyUI main.py", 1000, 0, "running"⟩], [],
    [⟨8188, true, some 123, none⟩]⟩

/-- No matching process, port closed. -/
def badProcess : HM.ProcessHealth := ⟨[], [], [⟨8188, false, none, none⟩]⟩

/-- First check's metrics: everything healthy (score 100). -/
def goodMetrics : HM.HealthMetrics :=
  HM.collectHealthMetrics hmCfg 1 goodComfy (50 * 1024 * 1024) 10
    goodSystem goodProcess

/-- Second check's metrics: everything down except the self-check
(score 20, status `unhealthy`; the heap reading is 200 MB so the bounded
memory bonus is not earned). -/
def badMetrics : HM.HealthMetrics :=
  HM.collectHealthMetrics hmCfg 2 badComfy (200 * 1024 * 1024) 15
    badSystem badProcess

/-- A monitor that has not yet performed a check. -/
def hmMon0 : HM.Monitor := ⟨0, none, []⟩

/-- First health check (healthy). -/
def hmCheck1 : HM.Monitor × List HM.HMEvent :=
  HM.performHealthCheck hmMon0 goodMetrics

/-- Second health check (unhealthy) — the status flips between the checks. -/
def hmCheck2 : HM.Monitor × List HM.HMEvent :=
  HM.performHealthCheck hmCheck1.1 badMetrics

/-- A managed-process config (no auto-restart, so the stop sequence is not
followed by a restart). -/
def pCfg : PM.ProcessConfig :=
  { name := "comfyui-main"
    command := "python"
    args := ["main.py"]
    autoRestart := false
    maxRestarts := none
    restartDelay := none
    killTimeout := none }

/-- An empty process manager. -/
def pm0 : PM.Manager := ⟨[], [], [], []⟩

/-- After `startProcess(pCfg)` succeeding with PID 42 at t=1. -/
def pm1 : PM.Manager := PM.applyPMOp pm0 (.start pCfg 1 (some 42))

/-- After the synchronous part of `stopProcess("comfyui-main")`. -/
def pm2 : PM.Manager := PM.applyPMOp pm1 (.stop "comfyui-main" false)

/-- After the killed process's exit event at t=2 — `stopProcess` has now fully
completed (the child handle is gone and the awaited poll loop returns). -/
def pm3 : PM.Manager := PM.applyPMOp pm2 (.exited "comfyui-main" 2)

/-- The registry record left behind by the completed stop sequence. -/
def pStopped : PM.ProcessInfo :=
  { pid := 42
    name := "comfyui-main"
    commandLine := "python main.py"
    status := .stopped
    startTime := some 1
    endTime := some 2
    restartCount := 0
    lastError := none }

/-- Workflow step A: no dependencies. -/
def stepA : WF.WorkflowStep := { id := "A", name := "A", workflowFile := "a.json" }

/-- Workflow step B: depends on A. -/
def stepB : WF.WorkflowStep :=
  { id := "B", name := "B", workflowFile := "b.json", dependencies := some ["A"] }

/-- Workflow step C: depends on A. -/
def stepC : WF.WorkflowStep :=
  { id := "C", name := "C", workflowFile := "c.json", dependencies := some ["A"] }

/-- The three-step diamond input of the claim. -/
def diamondSteps : List WF.WorkflowStep := [stepA, stepB, stepC]

/-- Cyclic step A: depends on B. -/
def cycA : WF.WorkflowStep :=
  { id := "A", name := "A", workflowFile := "a.json", dependencies := some ["B"] }

/-- Cyclic step B: depends on A. -/
def cycB : WF.WorkflowStep :=
  { id := "B", name := "B", workflowFile := "b.json", dependencies := some ["A"] }

/-- A chain whose two steps form a dependency cycle. -/
def cyclicChain : WF.WorkflowChain :=
  { id := "chain-1"
    name := "cyclic"
    description := "two mutually dependent steps"
    steps := [cycA, cycB] }

end Demo

/-! ## Helper lemmas (shared) -/

theorem PM.getEntry_setEntry_same {α : Type} (m : List (String × α))
    (k : String) (v : α) : PM.getEntry (PM.setEntry m k v) k = some v := by
  induction m with
  | nil => simp [PM.setEntry, PM.getEntry]
  | cons e rest ih =>
      by_cases h : e.1 = k
      · simp [PM.setEntry, PM.getEntry, h]
      · simp [PM.setEntry, PM.getEntry, h, ih]

theorem PM.getEntry_setEntry_other {α : Type} (m : List (String × α))
    (k k' : String) (v : α) (h : k' ≠ k) :
    PM.getEntry (PM.setEntry m k v) k' = PM.getEntry m k' := by
  induction m with
  | nil => simp [PM.setEntry, PM.getEntry, Ne.symm h]
  | cons e rest ih =>
      by_cases he : e.1 = k
      · simp [PM.setEntry, PM.getEntry, he, Ne.symm h]
      · simp only [PM.setEntry, if_neg he]
        by_cases he' : e.1 = k'
        · simp [PM.getEntry, he']
        · simp [PM.getEntry, he', ih]

theorem PM.isSome_getEntry_setEntry {α : Type} (m : List (String × α))
    (k k' : String) (v : α) (h : (PM.getEntry m k').isSome = true) :
    (PM.getEntry (PM.setEntry m k v) k').isSome = true := by
  by_cases hk : k' = k
  · subst hk; simp [PM.getEntry_setEntry_same]
  · rw [PM.getEntry_setEntry_other m k k' v hk]; exact h


/-! ## Claim theorems -/

/-- Claim C10: for every index that is negative or not below the number of
stored snapshots, `restoreFromSnapshot` returns `false` and leaves the whole
manager — current state and snapshot buffer — unchanged. -/
theorem SM.restoreFromSnapshot_rejects_out_of_range (sm : SM.StateMgr)
    (i : Int) (h : i < 0 ∨ (sm.snapshots.length : Int) ≤ i) :
    SM.restoreFromSnapshot sm i = (sm, false) := by
  unfold SM.restoreFromSnapshot
  split
  · rfl
  · next hcond =>
      exfalso
      simp only [Bool.or_eq_true, decide_eq_true_eq, not_or, ge_iff_le] at hcond
      rcases h with h | h
      · exact hcond.1 h
      · exact hcond.2 h

/-- Witness for C10 at the concrete index `-1`. -/
theorem SM.restoreFromSnapshot_rejects_out_of_range_witness :
    ((-1 : Int) < 0 ∨ (Demo.mgr1.snapshots.length : Int) ≤ -1) ∧
    SM.restoreFromSnapshot Demo.mgr1 (-1) = (Demo.mgr1, false) :=
  ⟨Or.inl (by decide),
    SM.restoreFromSnapshot_rejects_out_of_range Demo.mgr1 (-1)
      (Or.inl (by decide))⟩

/-- Claim C6, counterexample: a snapshot taken under session "s1", followed by
`resetState` issuing session "s2", then `restoreFromSnapshot(0)`: the restore
succeeds but the current session id becomes "s1" again — the pre-restore
session id "s2" is *not* kept, contradicting the claim that `sessionId` is
never altered by restore. -/
theorem SM.restore_overwrites_sessionId_counterexample :
    Demo.mgr2.currentState.sessionId = "s2" ∧
    (SM.restoreFromSnapshot Demo.mgr2 0).2 = true ∧
    (SM.restoreFromSnapshot Demo.mgr2 0).1.currentState.sessionId = "s1" ∧
    (SM.restoreFromSnapshot Demo.mgr2 0).1.currentState.sessionId ≠
      Demo.mgr2.currentState.sessionId :=
  ⟨rfl, rfl, rfl, by decide⟩

/-- Claim C6 (amended): `createSnapshot` records exactly the current state,
and restoring an in-range snapshot returns `true` and replaces the current
state with the stored snapshot state in full — `sessionId` included, which is
taken from the snapshot rather than preserved; the snapshot buffer itself is
unchanged. -/
theorem SM.createSnapshot_restoreFromSnapshot_round_trip (sm : SM.StateMgr)
    (now : Nat) (i : Nat) (h : i < sm.snapshots.length) :
    (SM.createSnapshot sm now).2.state = sm.currentState ∧
    SM.restoreFromSnapshot sm (i : Int) =
      ({ sm with currentState := (sm.snapshots.get ⟨i, h⟩).state }, true) := by
  refine ⟨rfl, ?_⟩
  unfold SM.restoreFromSnapshot
  split
  · next hcond =>
      exfalso
      simp only [Bool.or_eq_true, decide_eq_true_eq, ge_iff_le] at hcond
      rcases hcond with hc | hc <;> omega
  · have : ((i : Int)).toNat = i := Int.toNat_natCast i
    rw [this, List.get?_eq_get h]

/-- Witness for C6 (amended): restoring the single stored snapshot of
`Demo.mgr1` reproduces the snapshotted state. -/
theorem SM.createSnapshot_restoreFromSnapshot_round_trip_witness :
    0 < Demo.mgr1.snapshots.length ∧
    SM.restoreFromSnapshot Demo.mgr1 0 =
      ({ Demo.mgr1 with currentState := Demo.mgr0.currentState }, true) := by
  refine ⟨by decide, ?_⟩
  exact (SM.createSnapshot_restoreFromSnapshot_round_trip Demo.mgr1 99 0
    (by decide)).2

/-- Claim C7: the 10-second periodic save and the 2-second debounced save
share the single `autoSaveTimer` field, so the very first mutation's
`triggerAutoSave()` clears the periodic `setInterval` handle and replaces it
with the debounce `setTimeout` — after which the unconditional periodic save
never fires again.  The claim (and spec) say the periodic save keeps firing
and that no mutation cancels it; the code contradicts its own
"Auto-save every 10 seconds" design in `startAutoSave`. -/
theorem SM.first_mutation_cancels_periodic_save :
    Demo.mgrAuto.autoSaveTimer = some (SM.TimerKind.interval 10000) ∧
    (SM.applyMutation Demo.mgrAuto 5 (.updConnection {})).1.autoSaveTimer =
      some (SM.TimerKind.oneShot 2000) ∧
    (SM.applyMutation Demo.mgrAuto 5 (.updConnection {})).1.autoSaveTimer ≠
      some (SM.TimerKind.interval 10000) :=
  ⟨rfl, rfl, by decide⟩

/-- Claim C8, counterexample: `addActiveOperation` at time 5 on a state whose
`lastActivity` is 0 leaves `lastActivity` at 0 and schedules no persistence —
it only appends to `activeOperations` and emits `operationStarted`.  The
claim says *every* mutation, these two included, sets `lastActivity` to the
current time. -/
theorem SM.addActiveOperation_skips_lastActivity_counterexample :
    (SM.applyMutation Demo.mgr0 5 (.addActiveOperation "op1")).1.currentState.lastActivity
      = 0 ∧
    (SM.applyMutation Demo.mgr0 5 (.addActiveOperation "op1")).1.currentState.lastActivity
      ≠ 5 ∧
    (SM.applyMutation Demo.mgr0 5 (.addActiveOperation "op1")).2 =
      [SM.SMEffect.emit "operationStarted"] :=
  ⟨rfl, by decide, rfl⟩

/-- Claim C8 (amended): every StateManager mutator *except*
`addActiveOperation`/`removeActiveOperation` sets `lastActivity` to the
current time and emits its typed change event strictly before the
(conditional) persistence scheduling; the two active-operation trackers leave
`lastActivity` untouched and never schedule persistence — they only emit
their membership event (when membership actually changes). -/
theorem SM.mutators_bump_lastActivity_and_emit_before_persist
    (sm : SM.StateMgr) (now : Nat) (m : SM.Mutation) :
    if m.isActiveOpTracking then
      (SM.applyMutation sm now m).1.currentState.lastActivity =
        sm.currentState.lastActivity ∧
      ((SM.applyMutation sm now m).2 = [] ∨
        (SM.applyMutation sm now m).2 = [SM.SMEffect.emit (SM.mutEventName m)])
    else
      (SM.applyMutation sm now m).1.currentState.lastActivity = now ∧
      ((SM.applyMutation sm now m).2 = [SM.SMEffect.emit (SM.mutEventName m)] ∨
        (SM.applyMutation sm now m).2 =
          [SM.SMEffect.emit (SM.mutEventName m),
            SM.SMEffect.schedulePersist 2000]) := by
  cases m <;>
    simp only [SM.Mutation.isActiveOpTracking, SM.applyMutation,
      SM.finishMutation, SM.triggerAutoSave, SM.mutEventName, if_true,
      if_false, Bool.false_eq_true, SM.createInitialState] <;>
    split <;>
    simp [apply_ite SM.ServerState.lastActivity]

/-- Claim C2: `performHealthCheck` stores the fresh metrics into
`lastHealthMetrics` *before* `analyzeHealthStatus` reads the "previous"
status from that same field, so the comparison always sees the current
status and `healthStatusChanged` can never be emitted.  Concretely: a
healthy first check followed by an unhealthy second check — the status
flips, yet the second check's event trace carries no `healthStatusChanged`
(only the status-specific event and `healthCheck`). -/
theorem HM.healthStatusChanged_never_emitted_on_flip :
    Demo.goodMetrics.overallHealth = HM.HealthStatus.healthy ∧
    Demo.badMetrics.overallHealth = HM.HealthStatus.unhealthy ∧
    Demo.hmCheck1.1.lastHealthMetrics = some Demo.goodMetrics ∧
    Demo.hmCheck2.2 = [HM.HMEvent.unhealthyStatus, HM.HMEvent.healthCheck] ∧
    ∀ c p, HM.HMEvent.healthStatusChanged c p ∉ Demo.hmCheck2.2 := by
  refine ⟨rfl, rfl, rfl, rfl, ?_⟩
  intro c p hmem
  have h2 : Demo.hmCheck2.2 = [HM.HMEvent.unhealthyStatus, HM.HMEvent.healthCheck] := rfl
  rw [h2] at hmem
  simp at hmem

/-- Claim C5: `resolveDependencies` on `[A, B(deps A), C(deps A)]` produces
exactly two batches: the first containing only A, the second containing
exactly B and C (here in the scan order `[C, B]`, since the source iterates
the remaining array from its end). -/
theorem WF.resolveDependencies_diamond :
    WF.resolveDependencies Demo.diamondSteps =
      .ok [[Demo.stepA], [Demo.stepC, Demo.stepB]] := rfl

/-- Unfolding of one `resolvePass` step on a nonempty remaining list. -/
theorem WF.resolvePass_cons (s : WF.WorkflowStep)
    (rest : List WF.WorkflowStep) (completed : List String) :
    WF.resolvePass (s :: rest) completed =
      (if (match s.dependencies with
            | none => true
            | some deps =>
                deps.all fun dep =>
                  (WF.resolvePass rest completed).2.2.contains dep) = true
       then ((WF.resolvePass rest completed).1 ++ [s],
             (WF.resolvePass rest completed).2.1,
             s.id :: (WF.resolvePass rest completed).2.2)
       else ((WF.resolvePass rest completed).1,
             s :: (WF.resolvePass rest completed).2.1,
             (WF.resolvePass rest completed).2.2)) := rfl

/-- Unfolding of one `resolveLoop` iteration with fuel left and a nonempty
remaining list. -/
theorem WF.resolveLoop_cons (fuel : Nat) (r : WF.WorkflowStep)
    (rs : List WF.WorkflowStep) (completed : List String) :
    WF.resolveLoop (fuel + 1) (r :: rs) completed =
      (if (WF.resolvePass (r :: rs) completed).1.isEmpty = true
       then .error "Circular dependency detected in workflow steps"
       else (WF.resolveLoop fuel (WF.resolvePass (r :: rs) completed).2.1
              (WF.resolvePass (r :: rs) completed).2.2).map
              (fun rest => (WF.resolvePass (r :: rs) completed).1 :: rest)) :=
  rfl

/-- Invariant of one pass: if no cycle-member id is completed yet, and cycle
ids among the remaining steps identify cycle members, then after the pass no
cycle-member id is completed, every remaining cycle member is still
remaining, and the new remaining list is a sub-collection of the old one. -/
theorem WF.resolvePass_cycle_invariant (cyc : List WF.WorkflowStep)
    (hdep : ∀ s ∈ cyc, ∃ deps, s.dependencies = some deps ∧
      ∃ d ∈ deps, d ∈ cyc.map (fun c => c.id)) :
    ∀ (remaining : List WF.WorkflowStep) (completed : List String),
      (∀ i ∈ cyc.map (fun c => c.id), i ∉ completed) →
      (∀ s ∈ remaining, s.id ∈ cyc.map (fun c => c.id) → s ∈ cyc) →
      (∀ i ∈ cyc.map (fun c => c.id),
          i ∉ (WF.resolvePass remaining completed).2.2) ∧
      (∀ s ∈ remaining, s ∈ cyc →
          s ∈ (WF.resolvePass remaining completed).2.1) ∧
      (∀ s ∈ (WF.resolvePass remaining completed).2.1, s ∈ remaining) := by
  intro remaining
  induction remaining with
  | nil =>
      intro completed hB _hC
      refine ⟨?_, ?_, ?_⟩
      · simpa [WF.resolvePass] using hB
      · intro s hs
        exact absurd hs (List.not_mem_nil s)
      · intro s hs
        simp [WF.resolvePass] at hs
  | cons r rest ih =>
      intro completed hB hC
      obtain ⟨ihB, ihKeep, ihSub⟩ := ih completed hB
        (fun t ht hid => hC t (List.mem_cons_of_mem r ht) hid)
      rw [WF.resolvePass_cons]
      split
      · next hexec =>
          have hrNotCyc : r ∉ cyc := by
            intro hr
            obtain ⟨deps, hdeps, d, hd, hdid⟩ := hdep r hr
            rw [hdeps] at hexec
            rw [List.all_eq_true] at hexec
            have hdin : d ∈ (WF.resolvePass rest completed).2.2 := by
              simpa using hexec d hd
            exact ihB d hdid hdin
          refine ⟨?_, ?_, ?_⟩
          · intro i hi hmem
            rcases List.mem_cons.mp hmem with hir | hicomp
            · exact hrNotCyc (hC r (List.mem_cons_self r rest) (hir ▸ hi))
            · exact ihB i hi hicomp
          · intro s hs hscyc
            rcases List.mem_cons.mp hs with rfl | hsrest
            · exact absurd hscyc hrNotCyc
            · exact ihKeep s hsrest hscyc
          · intro s hs
            exact List.mem_cons_of_mem r (ihSub s hs)
      · refine ⟨ihB, ?_, ?_⟩
        · intro s hs hscyc
          rcases List.mem_cons.mp hs with rfl | hsrest
          · exact List.mem_cons_self s _
          · exact List.mem_cons_of_mem r (ihKeep s hsrest hscyc)
        · intro s hs
          rcases List.mem_cons.mp hs with rfl | hsrem
          · exact List.mem_cons_self s rest
          · exact List.mem_cons_of_mem r (ihSub s hsrem)

/-- Under the cycle invariant the driving loop always fails with the
circular-dependency error: the remaining list always retains the cycle
members, so it never empties, and each iteration either finds an empty batch
or recurses on a state that still satisfies the invariant. -/
theorem WF.resolveLoop_cycle_error (cyc : List WF.WorkflowStep)
    (hne : cyc ≠ [])
    (hdep : ∀ s ∈ cyc, ∃ deps, s.dependencies = some deps ∧
      ∃ d ∈ deps, d ∈ cyc.map (fun c => c.id)) :
    ∀ (fuel : Nat) (remaining : List WF.WorkflowStep) (completed : List String),
      (∀ i ∈ cyc.map (fun c => c.id), i ∉ completed) →
      (∀ s ∈ remaining, s.id ∈ cyc.map (fun c => c.id) → s ∈ cyc) →
      (∀ s ∈ cyc, s ∈ remaining) →
      WF.resolveLoop fuel remaining completed =
        .error "Circular dependency detected in workflow steps" := by
  intro fuel
  induction fuel with
  | zero =>
      intro remaining completed _hB _hC hA
      obtain ⟨c, hc⟩ := List.exists_mem_of_ne_nil cyc hne
      have hmem := hA c hc
      cases remaining with
      | nil => exact absurd hmem (List.not_mem_nil c)
      | cons r rs => rfl
  | succ fuel ih =>
      intro remaining completed hB hC hA
      obtain ⟨c, hc⟩ := List.exists_mem_of_ne_nil cyc hne
      have hmem := hA c hc
      cases remaining with
      | nil => exact absurd hmem (List.not_mem_nil c)
      | cons r rs =>
          obtain ⟨hB2, hKeep2, hSub2⟩ :=
            WF.resolvePass_cycle_invariant cyc hdep (r :: rs) completed hB hC
          rw [WF.resolveLoop_cons]
          split
          · rfl
          · rw [ih (WF.resolvePass (r :: rs) completed).2.1
                (WF.resolvePass (r :: rs) completed).2.2 hB2
                (fun s hs => hC s (hSub2 s hs))
                (fun s hs => hKeep2 s (hA s hs) hs)]
            rfl

/-- Claim C4: for *every* workflow chain with unique step ids whose steps
contain a dependency cycle, `resolveDependencies` throws the
circular-dependency error, and `execute_workflow_chain` — for any step
executor whatsoever — reports that error with *no* step ever submitted
(`executedSteps = []`). -/
theorem WF.cyclic_chain_aborts_before_any_step (chain : WF.WorkflowChain)
    (runStep : WF.WorkflowStep → Except String Nat)
    (hnodup : (chain.steps.map (fun s => s.id)).Nodup)
    (hcyc : WF.HasCycle chain.steps) :
    WF.resolveDependencies chain.steps =
      .error "Circular dependency detected in workflow steps" ∧
    WF.execute_workflow_chain chain runStep =
      { isError := true
        errorMsg := some
          "Failed to execute workflow chain: Circular dependency detected in workflow steps"
        executedSteps := []
        finalStatus := none } := by
  obtain ⟨cyc, hne, hsub, hdep⟩ := hcyc
  have hmain : WF.resolveDependencies chain.steps =
      .error "Circular dependency detected in workflow steps" := by
    unfold WF.resolveDependencies
    apply WF.resolveLoop_cycle_error cyc hne hdep
    · intro i _ hmem
      exact absurd hmem (List.not_mem_nil i)
    · intro s hs hid
      obtain ⟨c, hc, hcid⟩ := List.mem_map.mp hid
      have hceq : c = s := List.inj_on_of_nodup_map hnodup (hsub c hc) hs hcid
      exact hceq ▸ hc
    · exact hsub
  refine ⟨hmain, ?_⟩
  unfold WF.execute_workflow_chain
  rw [hmain]
  rfl

/-- Witness for C4: the two-step cycle chain `Demo.cyclicChain` with the
cycle `[cycA, cycB]`, evaluated against an executor that would succeed on
every step — the run still aborts with the circular-dependency error and
executes nothing. -/
theorem WF.cyclic_chain_aborts_before_any_step_witness :
    ((Demo.cyclicChain.steps.map (fun s => s.id)).Nodup ∧
      WF.HasCycle Demo.cyclicChain.steps) ∧
    WF.resolveDependencies Demo.cyclicChain.steps =
      .error "Circular dependency detected in workflow steps" ∧
    WF.execute_workflow_chain Demo.cyclicChain (fun _ => Except.ok 0) =
      { isError := true
        errorMsg := some
          "Failed to execute workflow chain: Circular dependency detected in workflow steps"
        executedSteps := []
        finalStatus := none } := by
  have hnodup : (Demo.cyclicChain.steps.map (fun s => s.id)).Nodup := by decide
  have hcyc : WF.HasCycle Demo.cyclicChain.steps := by
    refine ⟨[Demo.cycA, Demo.cycB], by decide, by decide, ?_⟩
    intro s hs
    rcases List.mem_cons.mp hs with rfl | hs2
    · exact ⟨["B"], rfl, "B", by decide, by decide⟩
    rcases List.mem_cons.mp hs2 with rfl | hs3
    · exact ⟨["A"], rfl, "A", by decide, by decide⟩
    · exact absurd hs3 (List.not_mem_nil s)
  exact ⟨⟨hnodup, hcyc⟩,
    WF.cyclic_chain_aborts_before_any_step Demo.cyclicChain
      (fun _ => Except.ok 0) hnodup hcyc⟩

/-- Claim C1: when the first executor invocation throws and recovery reports
success, `executeWithRecovery` re-invokes the original executor exactly once
more (invocation count 2, never a third), and the overall outcome is exactly
the second invocation's outcome — a second throw propagates unchanged; when
recovery reports failure, the executor is not re-invoked (count 1) and the
original error is re-thrown. -/
theorem Orch.executeWithRecovery_retries_exactly_once {T : Type}
    (smOpt : Option SM.StateMgr) (handleError : String → Bool)
    (operation toolName : String) (now : Nat)
    (executor : Nat → Except String T) (e : String)
    (h : executor 0 = .error e) :
    (handleError e = true →
      (Orch.executeWithRecovery smOpt true handleError operation toolName now
        executor).2.2 = 2 ∧
      (Orch.executeWithRecovery smOpt true handleError operation toolName now
        executor).2.1 = executor 1) ∧
    (handleError e = false →
      (Orch.executeWithRecovery smOpt true handleError operation toolName now
        executor).2.2 = 1 ∧
      (Orch.executeWithRecovery smOpt true handleError operation toolName now
        executor).2.1 = Except.error e) := by
  constructor
  · intro hr
    cases h1 : executor 1 <;>
      simp [Orch.executeWithRecovery, h, hr, h1]
  · intro hr
    simp [Orch.executeWithRecovery, h, hr]

/-- Witness for C1: a concrete executor failing on both invocations with
distinct errors, recovery reporting success — the call makes exactly two
invocations and surfaces the retry's error "boom again" unchanged. -/
theorem Orch.executeWithRecovery_retries_exactly_once_witness :
    Demo.c1executor 0 = .error "boom" ∧
    (fun _ : String => true) "boom" = true ∧
    (Orch.executeWithRecovery none true (fun _ => true) "op" "tool" 0
      Demo.c1executor).2.2 = 2 ∧
    (Orch.executeWithRecovery none true (fun _ => true) "op" "tool" 0
      Demo.c1executor).2.1 = Demo.c1executor 1 := by
  refine ⟨rfl, rfl, ?_⟩
  exact (Orch.executeWithRecovery_retries_exactly_once none (fun _ => true)
    "op" "tool" 0 Demo.c1executor "boom" rfl).1 rfl

/-- Field bookkeeping for one connection failure: the configured bounds are
untouched and the attempt counter increments by one. -/
theorem CM.onConnectionFailure_fields (st : CM.ConnState) (now : Nat)
    (jitter : ℚ) :
    (CM.onConnectionFailure st now jitter).1.maxReconnectDelay =
      st.maxReconnectDelay ∧
    (CM.onConnectionFailure st now jitter).1.maxReconnectAttempts =
      st.maxReconnectAttempts ∧
    (CM.onConnectionFailure st now jitter).1.reconnectAttempts =
      st.reconnectAttempts + 1 := by
  simp only [CM.onConnectionFailure, CM.scheduleReconnect]
  split <;> simp

/-- Field bookkeeping along a failure sequence. -/
theorem CM.failSeq_fields (init : CM.ConnState) (times : Nat → Nat)
    (jitter : Nat → ℚ) (n : Nat) :
    (CM.failSeq init times jitter n).maxReconnectDelay =
      init.maxReconnectDelay ∧
    (CM.failSeq init times jitter n).maxReconnectAttempts =
      init.maxReconnectAttempts ∧
    (CM.failSeq init times jitter n).reconnectAttempts =
      init.reconnectAttempts + n := by
  induction n with
  | zero => simp [CM.failSeq]
  | succ k ih =>
      have h := CM.onConnectionFailure_fields
        (CM.failSeq init times jitter k) (times k) (jitter k)
      refine ⟨?_, ?_, ?_⟩
      · rw [CM.failSeq, h.1, ih.1]
      · rw [CM.failSeq, h.2.1, ih.2.1]
      · rw [CM.failSeq, h.2.2, ih.2.2]; omega

/-- One failure below the attempt cap updates the delay by the backoff
formula. -/
theorem CM.failSeq_delay_step (init : CM.ConnState) (times : Nat → Nat)
    (jitter : Nat → ℚ) (k : Nat)
    (h : (CM.failSeq init times jitter k).reconnectAttempts + 1 <
         (CM.failSeq init times jitter k).maxReconnectAttempts) :
    (CM.failSeq init times jitter (k + 1)).reconnectDelay =
      min ((CM.failSeq init times jitter k).reconnectDelay * 2 + jitter k)
        (CM.failSeq init times jitter k).maxReconnectDelay := by
  rw [CM.failSeq]
  simp only [CM.onConnectionFailure]
  split
  · simp [CM.scheduleReconnect]
  · next hc => exact absurd (by simpa using h) hc

/-- The delay stays within `[0, maxReconnectDelay]` along any failure
sequence, given a nonnegative starting delay below the cap and nonnegative
jitters. -/
theorem CM.failSeq_delay_bounds (init : CM.ConnState) (times : Nat → Nat)
    (jitter : Nat → ℚ) (h0 : 0 ≤ init.reconnectDelay)
    (hle : init.reconnectDelay ≤ init.maxReconnectDelay)
    (hj : ∀ k, 0 ≤ jitter k) (n : Nat) :
    0 ≤ (CM.failSeq init times jitter n).reconnectDelay ∧
    (CM.failSeq init times jitter n).reconnectDelay ≤
      init.maxReconnectDelay := by
  induction n with
  | zero => exact ⟨h0, hle⟩
  | succ k ih =>
      have hmax := (CM.failSeq_fields init times jitter k).1
      have hcap : (0:ℚ) ≤ init.maxReconnectDelay := le_trans h0 hle
      rw [CM.failSeq]
      simp only [CM.onConnectionFailure]
      split
      · simp only [CM.scheduleReconnect]
        constructor
        · refine le_min ?_ (by simp [hmax]; exact hcap)
          have := hj k
          nlinarith [ih.1]
        · simp [hmax]
      · simpa using ih

/-- Claim C3: starting from a fresh connection state, for every failure index
`k` below `n < maxReconnectAttempts`, the delay after failure `k+1` equals
`min(previousDelay * 2 + jitter, maxReconnectDelay)` with the jitter sampled
from `[0, 1000)`; the delay sequence is monotonically non-decreasing and
never exceeds `maxReconnectDelay`. -/
theorem CM.reconnect_backoff_formula_monotone_capped
    (maxAttempts : Nat) (base maxDelay : ℚ) (cid : String)
    (times : Nat → Nat) (jitter : Nat → ℚ) (n : Nat)
    (hbase0 : 0 ≤ base) (hbase : base ≤ maxDelay)
    (hj : ∀ k, 0 ≤ jitter k ∧ jitter k < 1000)
    (hn : n < maxAttempts) :
    ∀ k, k < n →
      (CM.failSeq (CM.initialState maxAttempts base maxDelay cid) times jitter
          (k + 1)).reconnectDelay =
        min ((CM.failSeq (CM.initialState maxAttempts base maxDelay cid) times
            jitter k).reconnectDelay * 2 + jitter k) maxDelay ∧
      (CM.failSeq (CM.initialState maxAttempts base maxDelay cid) times jitter
          k).reconnectDelay ≤
        (CM.failSeq (CM.initialState maxAttempts base maxDelay cid) times
          jitter (k + 1)).reconnectDelay ∧
      (CM.failSeq (CM.initialState maxAttempts base maxDelay cid) times jitter
          (k + 1)).reconnectDelay ≤ maxDelay := by
  intro k hk
  set init := CM.initialState maxAttempts base maxDelay cid with hinit
  have hfields := CM.failSeq_fields init times jitter k
  have hguard : (CM.failSeq init times jitter k).reconnectAttempts + 1 <
      (CM.failSeq init times jitter k).maxReconnectAttempts := by
    rw [hfields.2.1, hfields.2.2, hinit]
    simp only [CM.initialState]
    omega
  have hstep := CM.failSeq_delay_step init times jitter k hguard
  have hmaxd : (CM.failSeq init times jitter k).maxReconnectDelay = maxDelay := by
    rw [hfields.1, hinit]; rfl
  rw [hmaxd] at hstep
  have hbounds := CM.failSeq_delay_bounds init times jitter
    (by rw [hinit]; exact hbase0) (by rw [hinit]; exact hbase)
    (fun k => (hj k).1) k
  have hboundsMax : (CM.failSeq init times jitter k).reconnectDelay ≤ maxDelay := by
    have := hbounds.2
    rw [hinit] at this
    exact this
  refine ⟨hstep, ?_, ?_⟩
  · rw [hstep]
    refine le_min ?_ hboundsMax
    have := (hj k).1
    nlinarith [hbounds.1]
  · rw [hstep]
    exact min_le_right _ _

/-- Witness for C3: base 2000, cap 30000, constant jitter 500, three failures
below the cap of 10 attempts — evaluated at k = 1. -/
theorem CM.reconnect_backoff_formula_monotone_capped_witness :
    ((0:ℚ) ≤ 2000 ∧ (2000:ℚ) ≤ 30000 ∧
      (∀ _ : Nat, (0:ℚ) ≤ 500 ∧ (500:ℚ) < 1000) ∧ 3 < 10 ∧ 1 < 3) ∧
    ((CM.failSeq (CM.initialState 10 2000 30000 "conn-1") (fun _ => 0)
        (fun _ => 500) 2).reconnectDelay =
      min ((CM.failSeq (CM.initialState 10 2000 30000 "conn-1") (fun _ => 0)
          (fun _ => 500) 1).reconnectDelay * 2 + (fun _ : Nat => (500:ℚ)) 1)
        30000 ∧
      (CM.failSeq (CM.initialState 10 2000 30000 "conn-1") (fun _ => 0)
          (fun _ => 500) 1).reconnectDelay ≤
        (CM.failSeq (CM.initialState 10 2000 30000 "conn-1") (fun _ => 0)
          (fun _ => 500) 2).reconnectDelay ∧
      (CM.failSeq (CM.initialState 10 2000 30000 "conn-1") (fun _ => 0)
          (fun _ => 500) 2).reconnectDelay ≤ 30000) := by
  refine ⟨⟨by norm_num, by norm_num, fun _ => ⟨by norm_num, by norm_num⟩,
    by norm_num, by norm_num⟩, ?_⟩
  exact CM.reconnect_backoff_formula_monotone_capped 10 2000 30000 "conn-1"
    (fun _ => 0) (fun _ => 500) 3 (by norm_num) (by norm_num)
    (fun _ => ⟨by norm_num, by norm_num⟩) (by norm_num) 1 (by norm_num)

/-- `startProcess` never removes a registry entry. -/
theorem PM.startProcess_preserves_entry (pm : PM.Manager)
    (config : PM.ProcessConfig) (now : Nat) (spawnPid : Option Nat)
    (name : String) (h : (PM.getEntry pm.processes name).isSome = true) :
    (PM.getEntry (PM.startProcess pm config now spawnPid).1.processes
      name).isSome = true := by
  simp only [PM.startProcess]
  split
  · exact h
  · cases spawnPid <;>
      simp only [] <;>
      exact PM.isSome_getEntry_setEntry _ _ _ _
        (PM.isSome_getEntry_setEntry _ _ _ _ h)

/-- Claim C9, counterexample: after `startProcess`, the synchronous part of
`stopProcess`, and the killed process's exit event — i.e. after a fully
completed explicit stop — the `ProcessInfo` record is *still present* in the
registry (status `stopped`); only the `ChildProcess` handle is gone.
`stopProcess` does not remove registry records, contradicting the claim that
records are removed exactly by an explicit `stopProcess` call. -/
theorem PM.stopProcess_leaves_registry_entry_counterexample :
    PM.getEntry Demo.pm3.processes "comfyui-main" = some Demo.pStopped ∧
    Demo.pStopped.status = PM.ProcStatus.stopped ∧
    Demo.pm3.childProcesses = [] ∧
    (PM.getEntry Demo.pm3.processes "comfyui-main").isSome = true :=
  ⟨rfl, rfl, rfl, rfl⟩

/-- Claim C9 (amended): `ProcessInfo` records are never removed from the
registry by any operation — `stopProcess` included, which only clears the
child handle and leaves the record behind with status `stopped`; a fired
auto-restart timer increments the existing record's `restartCount`, and the
re-registered record under the same name carries the incremented count. -/
theorem PM.registry_never_shrinks_and_restart_increments
    (pm : PM.Manager) (name : String) :
    (∀ op : PM.PMOp, (PM.getEntry pm.processes name).isSome = true →
      (PM.getEntry (PM.applyPMOp pm op).processes name).isSome = true) ∧
    (∀ (info : PM.ProcessInfo) (cfg : PM.ProcessConfig) (now pid : Nat),
      PM.getEntry pm.processes name = some info →
      PM.getEntry pm.configs name = some cfg →
      cfg.name = name →
      info.status ≠ PM.ProcStatus.running →
      (PM.getEntry (PM.applyPMOp pm
          (.restartFire name now (some pid))).processes name).map
        PM.ProcessInfo.restartCount = some (info.restartCount + 1)) := by
  constructor
  · intro op h
    cases op with
    | start config now spawnPid =>
        exact PM.startProcess_preserves_entry pm config now spawnPid name h
    | exited name' now =>
        simp only [PM.applyPMOp, PM.onProcessExit]
        split
        · split
          · exact PM.isSome_getEntry_setEntry _ _ _ _ h
          · exact PM.isSome_getEntry_setEntry _ _ _ _ h
        · exact h
    | restartFire name' now spawnPid =>
        simp only [PM.applyPMOp, PM.restartTimerFire]
        split
        · next info cfg heq1 heq2 =>
            exact PM.startProcess_preserves_entry _ cfg now spawnPid name
              (PM.isSome_getEntry_setEntry _ _ _ _ h)
        · exact h
    | stop name' force =>
        simp only [PM.applyPMOp, PM.stopProcessSync]
        split
        · exact h
        · split
          · exact PM.isSome_getEntry_setEntry _ _ _ _ h
          · exact h
  · intro info cfg now pid h1 h2 h3 h4
    subst h3
    simp only [PM.applyPMOp, PM.restartTimerFire, h1, h2]
    simp only [PM.startProcess, PM.getEntry_setEntry_same]
    rw [if_neg]
    · simp only [PM.getEntry_setEntry_same]
      rfl
    · simp [h4]

/-- Witness for C9 (amended): registry preservation across the stop operation
on the started process, and the restart-timer firing on the stopped record
bumping `restartCount` from 0 to 1. -/
theorem PM.registry_never_shrinks_and_restart_increments_witness :
    (PM.getEntry Demo.pm1.processes "comfyui-main").isSome = true ∧
    (PM.getEntry (PM.applyPMOp Demo.pm1
        (.stop "comfyui-main" false)).processes "comfyui-main").isSome = true ∧
    (PM.getEntry (PM.applyPMOp Demo.pm3
        (.restartFire "comfyui-main" 3 (some 99))).processes "comfyui-main").map
      PM.ProcessInfo.restartCount = some (Demo.pStopped.restartCount + 1) := by
  refine ⟨rfl, ?_, ?_⟩
  · exact (PM.registry_never_shrinks_and_restart_increments Demo.pm1
      "comfyui-main").1 (.stop "comfyui-main" false) rfl
  · exact (PM.registry_never_shrinks_and_restart_increments Demo.pm3
      "comfyui-main").2 Demo.pStopped Demo.pCfg 3 99 rfl rfl rfl (by decide)
